import Mathlib

/-!
Shallow embedding of the jsonrpsee dispatch core:
`src/utils/src/server/rpc_module.rs` (RpcModule, RpcContextModule,
SubscriptionSink, the Subscribers table) and
`src/http-client/src/transport.rs` (HttpTransportClient).

Conventions of the embedding:
- machine integers are `Nat`/`Int` with explicit `% 2^w` where overflow matters;
- the mpsc unbounded channel (`MethodSink`) is a `Sink`: a closed flag plus the
  queue of already-enqueued frames; `unbounded_send` fails exactly when the
  receiver end is gone (`closed = true`), since the channel is unbounded;
- shared mutable state (the `Subscribers` table behind `Arc<Mutex<..>>`) is
  passed explicitly through handlers and returned updated;
- the random source `rand::random::<u64>()` is an explicit `Nat` input to the
  subscribe handler, reduced `% 2^64` to a `u64` value;
- fallible Rust code returning `Result<T, E>` becomes `Except E T`; `&mut self`
  methods return the updated receiver paired with the `Except` result, and on
  error return the receiver unchanged exactly when the Rust borrow does.
-/

namespace JsonRpsee

/-- Model of a JSON document (serde_json values / RawValue). The external JSON
serializer is out of scope of the repository; `Json.render` below models
`serde_json::to_string` on this document type. -/
inductive Json where
  | null : Json
  | bool (b : Bool) : Json
  | num (n : Int) : Json
  | str (s : String) : Json
  | arr (elems : List Json) : Json
  | obj (fields : List (String × Json)) : Json

/-- Modelled from the spec: JSON string escaping done by the external
serializer; quotes and backslashes are escaped (control characters, which never
occur in the frames the claims are about, are elided). -/
def escapeJsonString (s : String) : String :=
  s.data.foldr
    (fun c acc =>
      (if c = '"' then "\\\"" else if c = '\\' then "\\\\" else String.singleton c) ++ acc)
    ""

/-- Modelled from the spec: compact rendering of a JSON document, as the
external serde_json serializer produces for the wire frames of section 6. -/
def Json.render : Json → String
  | .null => "null"
  | .bool b => cond b "true" "false"
  | .num n => toString n
  | .str s => "\"" ++ escapeJsonString s ++ "\""
  | .arr elems =>
      "[" ++ String.intercalate "," (elems.attach.map (fun e => Json.render e.1)) ++ "]"
  | .obj fields =>
      "\x7b" ++
        String.intercalate ","
          (fields.attach.map (fun f => "\"" ++ escapeJsonString f.1.1 ++ "\":" ++ Json.render f.1.2))
        ++ "\x7d"
termination_by j => sizeOf j
decreasing_by
  · have h := List.sizeOf_lt_of_mem e.2
    simp only [Json.arr.sizeOf_spec]
    omega
  · have h := List.sizeOf_lt_of_mem f.2
    have h2 : sizeOf f.1.2 < sizeOf f.1 := by
      obtain ⟨⟨k, v⟩, hf⟩ := f
      simp only [Prod.mk.sizeOf_spec]
      omega
    simp only [Json.obj.sizeOf_spec]
    omega

/-- Request id (`jsonrpsee_types::v2::params::Id`): null, number or string. -/
inductive RpcId where
  | null : RpcId
  | num (n : Nat) : RpcId
  | str (s : String) : RpcId
deriving DecidableEq, Repr

/-- Wire form of a request id inside a response envelope. -/
def RpcId.toJson : RpcId → Json
  | .null => .null
  | .num n => .num n
  | .str s => .str s

/-- Model of `MethodSink = mpsc::UnboundedSender<String>`: the queue of frames
already enqueued toward one connection, plus whether the receiver is gone. -/
structure Sink where
  closed : Bool
  queue : List String
deriving DecidableEq, Repr

/-- Model of `UnboundedSender::unbounded_send`: the channel is unbounded, so a
send succeeds (appending the frame) exactly when the channel is not closed;
on a closed channel it fails and the message is dropped. -/
def Sink.unbounded_send (tx : Sink) (msg : String) : Sink × Bool :=
  if tx.closed then (tx, false) else ({ tx with queue := tx.queue ++ [msg] }, true)

/-- Error object of an error response (`JsonRpcErrorObject`): numeric code,
message, optional data. -/
structure JsonRpcErrorObject where
  code : Int
  message : String
  data : Option Json

/-- Wire form of an error object. -/
def JsonRpcErrorObject.toJson (e : JsonRpcErrorObject) : Json :=
  .obj ([("code", .num e.code), ("message", .str e.message)] ++
    (match e.data with | none => [] | some d => [("data", d)]))

/-- Modelled from the spec: `JsonRpcErrorCode::InvalidParams.into()` from
jsonrpsee-types (not under src/); section 6 fixes its code to -32602. -/
def invalidParamsErrorObject : JsonRpcErrorObject :=
  { code := -32602, message := "Invalid params", data := none }

/-- Modelled from the spec: `CALL_EXECUTION_FAILED_CODE` from jsonrpsee-types
(not under src/); section 6 reserves -32000 for user-returned call failures. -/
def CALL_EXECUTION_FAILED_CODE : Int := -32000

/-- Modelled from the spec: `helpers::send_response` (src/utils/src/server/
helpers.rs is not under src/): serializes the success envelope of section 6,
enqueues it on the sink, and ignores a send failure. -/
def send_response (id : RpcId) (tx : Sink) (result : Json) : Sink :=
  (tx.unbounded_send (Json.render
    (.obj [("jsonrpc", .str "2.0"), ("result", result), ("id", id.toJson)]))).1

/-- Modelled from the spec: `helpers::send_error` (src/utils/src/server/
helpers.rs is not under src/): serializes the error envelope of section 6,
enqueues it on the sink, and ignores a send failure. -/
def send_error (id : RpcId) (tx : Sink) (err : JsonRpcErrorObject) : Sink :=
  (tx.unbounded_send (Json.render
    (.obj [("jsonrpc", .str "2.0"), ("error", err.toJson), ("id", id.toJson)]))).1

/-- Call-level error returned by user callbacks
(`jsonrpsee_types::error::CallError`); `failed` carries the display string of
the wrapped error (`err.to_string()`). -/
inductive CallError where
  | invalidParams : CallError
  | failed (display : String) : CallError
deriving DecidableEq, Repr

/-- The `jsonrpsee_types::error::Error` variants the embedded code uses. -/
inductive Error where
  | methodAlreadyRegistered (name : String) : Error
  | subscriptionNameConflict (name : String) : Error
  | call (e : CallError) : Error
  | internal : Error
deriving DecidableEq, Repr

/-- Model of `RpcParams`: the raw `params` field of the request, if present. -/
structure RpcParams where
  raw : Option Json

/-- Modelled from the spec: `RpcParams::one::<u64>()` from jsonrpsee-types (not
under src/): expects a single positional parameter and parses it as a
subscription id (a u64), failing with an invalid-params call error otherwise. -/
def RpcParams.one (p : RpcParams) : Except Error Nat :=
  match p.raw with
  | some (.arr [.num n]) =>
      if 0 ≤ n ∧ n < (2 : Int) ^ 64 then .ok n.toNat else .error (.call .invalidParams)
  | _ => .error (.call .invalidParams)

/-- The shared `Subscribers` table
`Arc<Mutex<FxHashMap<(ConnectionId, SubscriptionId), MethodSink>>>`, as an
association list keyed by `(connection_id, subscription_id)`. The stored
`MethodSink` clone is identified by a sink id (channel identity). -/
abbrev SubsMap := List ((Nat × Nat) × Nat)

/-- Lookup of a key in the Subscribers table. -/
def SubsMap.find? : SubsMap → (Nat × Nat) → Option Nat
  | [], _ => none
  | e :: es, k => if e.1 = k then some e.2 else SubsMap.find? es k

/-- Model of `HashMap::remove` on the Subscribers table: drops the entry for
the key if present, leaving everything else in place. -/
def SubsMap.remove (m : SubsMap) (k : Nat × Nat) : SubsMap :=
  m.filter (fun e => !(decide (e.1 = k)))

/-- Model of `HashMap::insert` on the Subscribers table: binds the key to the
value, replacing any existing binding for that key. -/
def SubsMap.insert (m : SubsMap) (k : Nat × Nat) (v : Nat) : SubsMap :=
  SubsMap.remove m k ++ [(k, v)]

/-- Result of one handler invocation: the connection sink after all writes, the
Subscribers table after all updates, and the handler's outer
`Result<(), Error>`. -/
structure HandlerOutcome where
  sink : Sink
  subs : SubsMap
  outer : Except Error Unit

instance : Inhabited HandlerOutcome :=
  ⟨{ sink := { closed := true, queue := [] }, subs := [], outer := .ok () }⟩

/-- A registered `Method`:
`Fn(Id, RpcParams, &MethodSink, ConnectionId) -> Result<(), Error>`.
Beyond the four Rust arguments, the embedding passes explicitly what the Rust
closure reaches through shared state: the sink's channel identity (`txId`, used
as the value stored in Subscribers), the current Subscribers table, and the
random draw used by subscribe handlers. -/
abbrev Method :=
  RpcId → RpcParams → Sink → Nat → Nat → SubsMap → Nat → HandlerOutcome

/-- The method table `Methods = FxHashMap<&'static str, Method>`, as an
association list keyed by method name. -/
abbrev Methods := List (String × Method)

/-- Model of `HashMap::get` on the method table. -/
def Methods.lookup : Methods → String → Option Method
  | [], _ => none
  | e :: es, name => if e.1 = name then some e.2 else Methods.lookup es name

/-- Membership test on the method table. -/
def Methods.hasName (ms : Methods) (name : String) : Bool :=
  (Methods.lookup ms name).isSome

/-- Model of `HashMap::insert` on the method table: binds the name to the
handler, replacing any existing binding for that name. -/
def Methods.insert (ms : Methods) (name : String) (h : Method) : Methods :=
  ms.filter (fun e => !(decide (e.1 = name))) ++ [(name, h)]

/-- The server-side registry `RpcModule`: the method table, plus the module's
shared Subscribers handle (its initial contents; handlers receive and return
the table explicitly). -/
structure RpcModule where
  methods : Methods
  subscribers : SubsMap

/-- Model of `RpcModule::new`. -/
def RpcModule.new : RpcModule :=
  { methods := [], subscribers := [] }

/-- Model of `RpcModule::verify_method_name`: fails with
`MethodAlreadyRegistered` when the name is already bound. -/
def RpcModule.verify_method_name (m : RpcModule) (name : String) : Except Error Unit :=
  if (Methods.lookup m.methods name).isSome then
    .error (.methodAlreadyRegistered name)
  else
    .ok ()

/-- The closure installed by `RpcModule::register_method` (and, with the
context pre-applied, the line-for-line identical closure installed by
`RpcContextModule::register_method`): runs the user callback on the params; on
`Ok` writes a success response, on `InvalidParams` writes the -32602 error, on
`Failed` writes a -32000 error carrying the display string; in all cases the
outer result is `Ok(())` and the Subscribers table is untouched. -/
def registerMethodHandler (callback : RpcParams → Except CallError Json) : Method :=
  fun id params tx _txId _conn subs _rand =>
    match callback params with
    | .ok res =>
        { sink := send_response id tx res, subs := subs, outer := .ok () }
    | .error .invalidParams =>
        { sink := send_error id tx invalidParamsErrorObject, subs := subs, outer := .ok () }
    | .error (.failed display) =>
        { sink := send_error id tx
            { code := CALL_EXECUTION_FAILED_CODE, message := display, data := none },
          subs := subs, outer := .ok () }

/-- Model of `RpcModule::register_method`: verify the name, then install
`registerMethodHandler`; returns the updated module with the Rust
`Result<(), Error>`. -/
def RpcModule.register_method (m : RpcModule) (name : String)
    (callback : RpcParams → Except CallError Json) : RpcModule × Except Error Unit :=
  match m.verify_method_name name with
  | .error e => (m, .error e)
  | .ok () =>
      ({ m with methods := Methods.insert m.methods name (registerMethodHandler callback) },
       .ok ())

/-- The mask `!0 >> 11` on u64: the largest subscription id representable
exactly as an IEEE-754 double, 2^53 - 1. -/
def JS_NUM_MASK : Nat := (2 ^ 64 - 1) >>> 11

/-- The drawn subscription id: `rand::random::<SubscriptionId>() & JS_NUM_MASK`,
where `rand` is the raw entropy reduced to a u64 value. -/
def drawSubId (rand : Nat) : Nat := (rand % 2 ^ 64) &&& JS_NUM_MASK

/-- Handle given to a subscription callback (`SubscriptionSink` minus its
channel clone, which the embedding threads explicitly through `send`): the
subscribe method name and the assigned subscription id. -/
structure SubscriptionSink where
  method : String
  sub_id : Nat

/-- Model of `SubscriptionSink::send` (composed with its private helpers
`send_raw_value` and `inner_send`): serializes the value, frames it as the
subscription notification of section 6, and enqueues it on the inner channel;
a failed `unbounded_send` becomes `Error::Internal`. -/
def SubscriptionSink.send (s : SubscriptionSink) (result : Json) (inner : Sink) :
    Sink × Except Error Unit :=
  let msg := Json.render
    (.obj [("jsonrpc", .str "2.0"), ("method", .str s.method),
      ("params", .obj [("subscription", .num s.sub_id), ("result", result)])])
  let (inner2, ok) := inner.unbounded_send msg
  if ok then (inner2, .ok ()) else (inner2, .error .internal)

/-- A subscription callback `Fn(RpcParams, SubscriptionSink) -> Result<(), Error>`;
because the callback may push frames through its `SubscriptionSink` clone of the
connection channel, the embedding threads the channel state through it. -/
abbrev SubCallback := RpcParams → SubscriptionSink → Sink → Sink × Except Error Unit

/-- The subscribe closure installed by `RpcModule::register_subscription` (and
the identical one of `RpcContextModule::register_subscription_with_context`,
with the context pre-applied): draw a random id masked to 53 bits, insert
`(conn, sub_id) -> tx.clone()` into Subscribers, respond with the id, build the
`SubscriptionSink` and run the callback, whose result is the outer result. -/
def subscribeHandler (subscribe_method_name : String) (callback : SubCallback) : Method :=
  fun id params tx txId conn subs rand =>
    let sub_id := drawSubId rand
    let subs2 := SubsMap.insert subs (conn, sub_id) txId
    let tx2 := send_response id tx (.num sub_id)
    let sink : SubscriptionSink := { method := subscribe_method_name, sub_id := sub_id }
    let r := callback params sink tx2
    { sink := r.1, subs := subs2, outer := r.2 }

/-- The unsubscribe closure installed by `RpcModule::register_subscription`
(and the identical one of `RpcContextModule::register_subscription_with_context`):
parse the single positional parameter as the subscription id (propagating a
parse failure through the outer result via `?`), remove `(conn, sub_id)` from
Subscribers, and respond with the string `"Unsubscribed"`. -/
def unsubscribeHandler : Method :=
  fun id params tx _txId conn subs _rand =>
    match params.one with
    | .error e => { sink := tx, subs := subs, outer := .error e }
    | .ok sub_id =>
        { sink := send_response id tx (.str "Unsubscribed"),
          subs := SubsMap.remove subs (conn, sub_id),
          outer := .ok () }

/-- Model of `RpcModule::register_subscription`: reject equal names with
`SubscriptionNameConflict`, verify both names, then install the subscribe and
unsubscribe closures. -/
def RpcModule.register_subscription (m : RpcModule)
    (subscribe_method_name unsubscribe_method_name : String)
    (callback : SubCallback) : RpcModule × Except Error Unit :=
  if subscribe_method_name = unsubscribe_method_name then
    (m, .error (.subscriptionNameConflict subscribe_method_name))
  else
    match m.verify_method_name subscribe_method_name with
    | .error e => (m, .error e)
    | .ok () =>
        match m.verify_method_name unsubscribe_method_name with
        | .error e => (m, .error e)
        | .ok () =>
            let ms1 := Methods.insert m.methods subscribe_method_name
              (subscribeHandler subscribe_method_name callback)
            let ms2 := Methods.insert ms1 unsubscribe_method_name unsubscribeHandler
            ({ m with methods := ms2 }, .ok ())

/-- The first loop of `RpcModule::merge`: `verify_method_name` on every key of
`other` before anything is moved. -/
def RpcModule.verifyAllNames (m : RpcModule) : List String → Except Error Unit
  | [] => .ok ()
  | n :: ns =>
      match m.verify_method_name n with
      | .error e => .error e
      | .ok () => m.verifyAllNames ns

/-- Model of `RpcModule::merge`: verify every name of `other` against `self`;
only if all pass, insert all of `other`'s handlers into `self`. -/
def RpcModule.merge (m other : RpcModule) : RpcModule × Except Error Unit :=
  match m.verifyAllNames (other.methods.map Prod.fst) with
  | .error e => (m, .error e)
  | .ok () =>
      ({ m with methods := other.methods.foldl (fun ms e => Methods.insert ms e.1 e.2) m.methods },
       .ok ())

/-- The context-bearing registry `RpcContextModule<Context>`: a shared
immutable context plus the inner `RpcModule`. -/
structure RpcContextModule (Context : Type) where
  ctx : Context
  module : RpcModule

/-- Model of `RpcContextModule::register_method`: identical to the plain one
with the shared context pre-applied to the callback. -/
def RpcContextModule.register_method {C : Type} (m : RpcContextModule C) (name : String)
    (callback : RpcParams → C → Except CallError Json) :
    RpcContextModule C × Except Error Unit :=
  match m.module.verify_method_name name with
  | .error e => (m, .error e)
  | .ok () =>
      ({ m with module := { m.module with
          methods := Methods.insert m.module.methods name
            (registerMethodHandler (fun p => callback p m.ctx)) } },
       .ok ())

/-! ## HTTP transport (`src/http-client/src/transport.rs`) -/

/-- Modelled from the spec: the parsed URL produced by the external URL
library; only the scheme is observable by the embedded code. -/
structure Url where
  scheme : String
deriving DecidableEq, Repr

/-- Split a character list at the first occurrence of the `://` separator,
returning the parts before and after it. -/
def breakOnSchemeSep : List Char → Option (List Char × List Char)
  | ':' :: '/' :: '/' :: rest => some ([], rest)
  | c :: cs => (breakOnSchemeSep cs).map (fun p => (c :: p.1, p.2))
  | [] => none

/-- Modelled from the spec: `surf::http::Url::parse`, an external collaborator;
a URL parses when it has a nonempty alphabetic scheme, the `://` separator and
a nonempty remainder. -/
def Url.parse (s : String) : Option Url :=
  match breakOnSchemeSep s.data with
  | some (sch, rest) =>
      if sch ≠ [] && rest ≠ [] && sch.all Char.isAlpha then
        some { scheme := String.mk sch }
      else
        none
  | none => none

/-- Modelled from the spec: `HttpConfig` with its `max_request_body_size`. -/
structure HttpConfig where
  max_request_body_size : Nat
deriving DecidableEq, Repr

/-- Errors of the HTTP transport (`transport::Error`). -/
inductive TransportError where
  | url (msg : String) : TransportError
  | serialization : TransportError
  | http : TransportError
  | requestFailure (status_code : Nat) : TransportError
  | parseFailed : TransportError
  | requestTooLarge : TransportError
deriving DecidableEq, Repr

/-- The HTTP transport client (its `surf::Client` field is external I/O state
with no observable content at construction). -/
structure HttpTransportClient where
  target : Url
  config : HttpConfig
deriving DecidableEq, Repr

/-- Model of `HttpTransportClient::new`: parse the target URL (any parse
failure is an invalid-URL error), then accept exactly the scheme `http`. -/
def HttpTransportClient.new (target : String) (config : HttpConfig) :
    Except TransportError HttpTransportClient :=
  match Url.parse target with
  | none => .error (.url "Invalid URL")
  | some u =>
      if u.scheme = "http" then
        .ok { target := u, config := config }
      else
        .error (.url "URL scheme not supported, expects http")

/-- Decidable equality of `Except` results, used to evaluate the embedded
functions on concrete inputs. -/
def exceptDecEq {ε α : Type} [DecidableEq ε] [DecidableEq α] :
    (a b : Except ε α) → Decidable (a = b)
  | .ok a, .ok b =>
      if h : a = b then .isTrue (by rw [h]) else .isFalse (by simp [h])
  | .ok _, .error _ => .isFalse (by simp)
  | .error _, .ok _ => .isFalse (by simp)
  | .error e, .error f =>
      if h : e = f then .isTrue (by rw [h]) else .isFalse (by simp [h])

instance {ε α : Type} [DecidableEq ε] [DecidableEq α] : DecidableEq (Except ε α) :=
  exceptDecEq

/-- Outcome of `send_request`, which can panic: either a panic (an unwrapped
`Err`), or the Rust function returning its `Result`. The returned response is
identified by its HTTP status code. -/
inductive SendOutcome where
  | panicked : SendOutcome
  | ret (r : Except TransportError Nat) : SendOutcome
deriving DecidableEq, Repr

/-- Model of `HttpTransportClient::send_request`. Its two external inputs are
explicit: `serialized` is the outcome of `jsonrpc::to_vec(&request)` (the body
bytes, as a string), and `transport` is the outcome of
`self.client.send(request).await` (`Ok` carrying the response status code, or a
network-level failure). The code serializes, enforces the body-size cap, then
calls `.unwrap()` on the transport result: an `Err` there is a panic. -/
def HttpTransportClient.send_request (client : HttpTransportClient)
    (serialized : Except String String) (transport : Except String Nat) : SendOutcome :=
  match serialized with
  | .error _ => .ret (.error .serialization)
  | .ok body =>
      if body.length > client.config.max_request_body_size then
        .ret (.error .requestTooLarge)
      else
        match transport with
        | .error _ => .panicked
        | .ok status =>
            if 200 ≤ status && status < 300 then
              .ret (.ok status)
            else
              .ret (.error (.requestFailure status))

/-! ## Helper lemmas on the association-list maps -/

theorem SubsMap.find?_remove (m : SubsMap) (k : Nat × Nat) :
    SubsMap.find? (SubsMap.remove m k) k = none := by
  induction m with
  | nil => rfl
  | cons e es ih =>
    by_cases h : e.1 = k
    · simpa [SubsMap.remove, List.filter_cons, h] using ih
    · simpa [SubsMap.remove, List.filter_cons, h, SubsMap.find?] using ih

theorem SubsMap.find?_append_of_none (l₁ l₂ : SubsMap) (k : Nat × Nat)
    (h : SubsMap.find? l₁ k = none) :
    SubsMap.find? (l₁ ++ l₂) k = SubsMap.find? l₂ k := by
  induction l₁ with
  | nil => rfl
  | cons e es ih =>
    by_cases he : e.1 = k
    · simp [SubsMap.find?, he] at h
    · simp [SubsMap.find?, he] at h ⊢
      exact ih h

theorem SubsMap.find?_insert (m : SubsMap) (k : Nat × Nat) (v : Nat) :
    SubsMap.find? (SubsMap.insert m k v) k = some v := by
  unfold SubsMap.insert
  rw [SubsMap.find?_append_of_none _ _ _ (SubsMap.find?_remove m k)]
  simp [SubsMap.find?]

theorem SubsMap.remove_of_find?_none (m : SubsMap) (k : Nat × Nat)
    (h : SubsMap.find? m k = none) :
    SubsMap.remove m k = m := by
  induction m with
  | nil => rfl
  | cons e es ih =>
    by_cases he : e.1 = k
    · simp [SubsMap.find?, he] at h
    · simp [SubsMap.find?, he] at h
      simp [SubsMap.remove, List.filter_cons, he] at ih ⊢
      exact ih h

theorem Methods.lookup_filter_ne (ms : Methods) (name : String) :
    Methods.lookup (ms.filter (fun e => !(decide (e.1 = name)))) name = none := by
  induction ms with
  | nil => rfl
  | cons e es ih =>
    by_cases h : e.1 = name
    · simpa [List.filter_cons, h] using ih
    · simpa [List.filter_cons, h, Methods.lookup] using ih

theorem Methods.lookup_append_of_none (l₁ l₂ : Methods) (name : String)
    (h : Methods.lookup l₁ name = none) :
    Methods.lookup (l₁ ++ l₂) name = Methods.lookup l₂ name := by
  induction l₁ with
  | nil => rfl
  | cons e es ih =>
    by_cases he : e.1 = name
    · simp [Methods.lookup, he] at h
    · simp [Methods.lookup, he] at h ⊢
      exact ih h

theorem Methods.lookup_insert (ms : Methods) (name : String) (h : Method) :
    Methods.lookup (Methods.insert ms name h) name = some h := by
  unfold Methods.insert
  rw [Methods.lookup_append_of_none _ _ _ (Methods.lookup_filter_ne ms name)]
  simp [Methods.lookup]

theorem RpcModule.verifyAllNames_spec (m : RpcModule) (ns : List String) :
    (m.verifyAllNames ns = .ok () ↔ ∀ n ∈ ns, Methods.hasName m.methods n = false) ∧
    (∀ e, m.verifyAllNames ns = .error e →
      ∃ n ∈ ns, Methods.hasName m.methods n = true ∧ e = .methodAlreadyRegistered n) := by
  induction ns with
  | nil => simp [RpcModule.verifyAllNames]
  | cons n ns ih =>
    by_cases hn : Methods.hasName m.methods n = true
    · have hv : m.verify_method_name n = .error (.methodAlreadyRegistered n) := by
        simp only [RpcModule.verify_method_name, Methods.hasName] at hn ⊢
        simp [hn]
      constructor
      · simp [RpcModule.verifyAllNames, hv, hn]
      · intro e he
        simp only [RpcModule.verifyAllNames, hv] at he
        exact ⟨n, by simp, hn, by injection he with h2; exact h2.symm⟩
    · have hv : m.verify_method_name n = .ok () := by
        simp only [RpcModule.verify_method_name, Methods.hasName] at hn ⊢
        simp [hn]
      constructor
      · simp only [RpcModule.verifyAllNames, hv]
        rw [ih.1]
        simp only [Bool.not_eq_true] at hn
        simp [hn]
      · intro e he
        simp only [RpcModule.verifyAllNames, hv] at he
        obtain ⟨x, hx, hhas, hex⟩ := ih.2 e he
        exact ⟨x, by simp [hx], hhas, hex⟩

/-! ## Claim theorems -/

/-- C2: every subscription id a subscribe handler generates is the 64-bit
random draw masked to 53 bits, hence at most 2^53 - 1; that id is exactly the
key the handler inserts into the Subscribers table (and, by the handler's
definition, the value echoed in the success response and stamped on the
`SubscriptionSink` carried into every notification). -/
theorem subscription_id_fits_53_bits
    (name : String) (cb : SubCallback) (id : RpcId) (params : RpcParams)
    (tx : Sink) (txId conn : Nat) (subs : SubsMap) (rand : Nat) :
    drawSubId rand ≤ 2 ^ 53 - 1 ∧
    (subscribeHandler name cb id params tx txId conn subs rand).subs
      = SubsMap.insert subs (conn, drawSubId rand) txId := by
  constructor
  · have h1 : drawSubId rand ≤ JS_NUM_MASK := Nat.and_le_right
    have h2 : JS_NUM_MASK = 2 ^ 53 - 1 := by decide
    omega
  · rfl

/-- C1 counterexample: with the Subscribers table already holding the entry
`((0, 5), 77)` for connection 0, a subscribe invocation on connection 0 whose
random draw is 5 (a collision) does not redraw: it silently replaces the
existing entry, which now points at the new sink 88. -/
theorem subscribe_draw_collision_replaces_entry_cex :
    SubsMap.find? [((0, 5), 77)] (0, 5) = some 77 ∧
    SubsMap.find?
      ((subscribeHandler "subscribe_hello" (fun _ _ ch => (ch, .ok ()))
        (.num 1) ⟨none⟩ ⟨false, []⟩ 88 0 [((0, 5), 77)] 5).subs) (0, 5) = some 88 := by
  constructor
  · decide
  · decide

/-- C1 amended: the subscribe handler draws one random id masked to 53 bits
and inserts `(connection_id, id) -> sink` unconditionally; there is no
collision detection and no redraw, so when the drawn id already exists for the
same connection the existing entry is silently replaced by the new sink. -/
theorem subscribe_draw_collision_replaces_entry
    (name : String) (cb : SubCallback) (id : RpcId) (params : RpcParams) (tx : Sink)
    (txId conn : Nat) (subs : SubsMap) (rand : Nat) (oldTx : Nat)
    (_collision : SubsMap.find? subs (conn, drawSubId rand) = some oldTx) :
    SubsMap.find? ((subscribeHandler name cb id params tx txId conn subs rand).subs)
      (conn, drawSubId rand) = some txId := by
  show SubsMap.find? (SubsMap.insert subs (conn, drawSubId rand) txId) _ = some txId
  exact SubsMap.find?_insert subs (conn, drawSubId rand) txId

/-- Witness for C1 amended: concrete collision on connection 2, id 9, where the
old entry pointed at sink 50 and the redrawn-free insert leaves sink 60. -/
theorem subscribe_draw_collision_replaces_entry_witness :
    SubsMap.find?
      ((subscribeHandler "subscribe_foo" (fun _ _ ch => (ch, .ok ()))
        (.num 4) ⟨none⟩ ⟨false, []⟩ 60 2 [((2, 9), 50)] 9).subs) (2, 9) = some 60 :=
  subscribe_draw_collision_replaces_entry "subscribe_foo" (fun _ _ ch => (ch, .ok ()))
    (.num 4) ⟨none⟩ ⟨false, []⟩ 60 2 [((2, 9), 50)] 9 50 (by decide)

/-- C3 counterexample: `https://localhost:9933` parses as a URL with scheme
`https`, yet constructing the HTTP transport client with it fails: the code
accepts only the scheme `http`, so the claimed acceptance of `https` is false. -/
theorem https_scheme_rejected_cex :
    Url.parse "https://localhost:9933" = some { scheme := "https" } ∧
    HttpTransportClient.new "https://localhost:9933" { max_request_body_size := 80 }
      = .error (.url "URL scheme not supported, expects http") := by
  constructor
  · decide
  · decide

/-- C3 amended: constructing the HTTP transport client succeeds if and only if
the target URL parses and its scheme is exactly `http`; every failure,
including a parse failure and any other scheme (`https`, `ws`, ...), is an
invalid-URL error at construction, before any network activity. -/
theorem http_transport_new_accepts_only_http (target : String) (config : HttpConfig) :
    ((∃ c, HttpTransportClient.new target config = .ok c) ↔
      (∃ u, Url.parse target = some u ∧ u.scheme = "http")) ∧
    (∀ e, HttpTransportClient.new target config = .error e → ∃ msg, e = .url msg) := by
  unfold HttpTransportClient.new
  cases hp : Url.parse target with
  | none =>
    constructor
    · simp
    · intro e he
      injection he with he
      exact ⟨_, he.symm⟩
  | some u =>
    by_cases hs : u.scheme = "http"
    · constructor
      · simp [hs]
      · intro e he
        simp [hs] at he
    · constructor
      · simp [hs]
      · intro e he
        simp [hs] at he
        exact ⟨_, he.symm⟩

/-- Witness for C3 amended: a plain `http` URL is accepted. -/
theorem http_transport_new_accepts_only_http_witness :
    ∃ c, HttpTransportClient.new "http://localhost:9933" { max_request_body_size := 80 }
      = .ok c :=
  (http_transport_new_accepts_only_http "http://localhost:9933"
      { max_request_body_size := 80 }).1.mpr ⟨{ scheme := "http" }, by decide, rfl⟩

/-- C4: at a concrete request whose serialized body (1 byte) is within the
80-byte cap and whose underlying transport send fails, `send_request` panics —
the code unwraps the transport send future — instead of surfacing the failure
as a transport error value. -/
theorem send_request_transport_failure_panics :
    HttpTransportClient.send_request
      { target := { scheme := "http" }, config := { max_request_body_size := 80 } }
      (.ok "x") (.error "connection refused") = .panicked := by
  decide

/-- C5: the handler installed by `register_method` under a fresh name is
`registerMethodHandler callback`, and every invocation of it returns `Ok` from
its outer signature, leaves the Subscribers table alone, and writes exactly the
response the callback result dictates: a success response carrying `v` on
`Ok v`, a code -32602 error on `InvalidParams`, and a code -32000 error whose
message is the failure display string on `Failed`. -/
theorem register_method_handler_behavior
    (m : RpcModule) (name : String) (cb : RpcParams → Except CallError Json)
    (id : RpcId) (params : RpcParams) (tx : Sink) (txId conn : Nat)
    (subs : SubsMap) (rand : Nat) :
    (Methods.hasName m.methods name = false →
      Methods.lookup (m.register_method name cb).1.methods name
        = some (registerMethodHandler cb)) ∧
    (registerMethodHandler cb id params tx txId conn subs rand).outer = .ok () ∧
    (registerMethodHandler cb id params tx txId conn subs rand).subs = subs ∧
    (∀ v, cb params = .ok v →
      (registerMethodHandler cb id params tx txId conn subs rand).sink
        = send_response id tx v) ∧
    (cb params = .error .invalidParams →
      (registerMethodHandler cb id params tx txId conn subs rand).sink
        = send_error id tx { code := -32602, message := "Invalid params", data := none }) ∧
    (∀ s, cb params = .error (.failed s) →
      (registerMethodHandler cb id params tx txId conn subs rand).sink
        = send_error id tx { code := -32000, message := s, data := none }) := by
  refine ⟨?_, ?_, ?_, ?_, ?_, ?_⟩
  · intro hfree
    simp only [Methods.hasName, Bool.not_eq_true] at hfree
    simp only [RpcModule.register_method, RpcModule.verify_method_name, hfree]
    simp [Methods.lookup_insert]
  · cases hcb : cb params with
    | ok v => simp [registerMethodHandler, hcb]
    | error e => cases e <;> simp [registerMethodHandler, hcb]
  · cases hcb : cb params with
    | ok v => simp [registerMethodHandler, hcb]
    | error e => cases e <;> simp [registerMethodHandler, hcb]
  · intro v hcb
    simp [registerMethodHandler, hcb]
  · intro hcb
    simp [registerMethodHandler, hcb, invalidParamsErrorObject]
  · intro s hcb
    simp [registerMethodHandler, hcb, CALL_EXECUTION_FAILED_CODE]

/-- Witness for C5: with a callback returning the string `"hello"`, the
registration installs the handler and the handler writes the success response. -/
theorem register_method_handler_behavior_witness :
    Methods.lookup
      ((RpcModule.new.register_method "say_hello" (fun _ => .ok (.str "hello"))).1.methods)
      "say_hello" = some (registerMethodHandler (fun _ => .ok (.str "hello"))) ∧
    (registerMethodHandler (fun _ => .ok (.str "hello"))
        (.num 1) ⟨none⟩ ⟨false, []⟩ 0 0 [] 0).sink
      = send_response (.num 1) ⟨false, []⟩ (.str "hello") := by
  have h := register_method_handler_behavior RpcModule.new "say_hello"
    (fun _ => .ok (.str "hello")) (.num 1) ⟨none⟩ ⟨false, []⟩ 0 0 [] 0
  exact ⟨h.1 (by decide), h.2.2.2.1 (.str "hello") rfl⟩

/-- C6: merging succeeds exactly when no method name of `other` is already
registered in `self`; on any collision the merge fails with
`MethodAlreadyRegistered` naming a colliding method, and `self` is exactly what
it was before the call. -/
theorem merge_succeeds_iff_no_collision (self other : RpcModule) :
    ((self.merge other).2 = .ok () ↔
      ∀ n ∈ other.methods.map Prod.fst, Methods.hasName self.methods n = false) ∧
    ((self.merge other).2 ≠ .ok () →
      (self.merge other).1 = self ∧
      ∃ n, n ∈ other.methods.map Prod.fst ∧ Methods.hasName self.methods n = true ∧
        (self.merge other).2 = .error (.methodAlreadyRegistered n)) := by
  have hspec := RpcModule.verifyAllNames_spec self (other.methods.map Prod.fst)
  cases hv : self.verifyAllNames (other.methods.map Prod.fst) with
  | ok u =>
    cases u
    constructor
    · rw [show (self.merge other).2 = Except.ok () from by simp [RpcModule.merge, hv]]
      exact ⟨fun _ => hspec.1.mp hv, fun _ => rfl⟩
    · intro hne
      exact absurd (by simp [RpcModule.merge, hv]) hne
  | error e =>
    obtain ⟨n, hn, hhas, hee⟩ := hspec.2 e hv
    constructor
    · constructor
      · intro hok
        simp [RpcModule.merge, hv] at hok
      · intro hall
        have := hall n hn
        rw [hhas] at this
        cases this
    · intro _
      refine ⟨by simp [RpcModule.merge, hv], n, hn, hhas, ?_⟩
      simp [RpcModule.merge, hv, hee]

/-- Witness for C6: two modules both defining `"m"`; the merge fails and the
first module keeps its original method table. -/
theorem merge_succeeds_iff_no_collision_witness :
    (((RpcModule.new.register_method "m" (fun _ => .ok .null)).1.merge
        (RpcModule.new.register_method "m" (fun _ => .ok (.num 1))).1).1
      = (RpcModule.new.register_method "m" (fun _ => .ok .null)).1) ∧
    (((RpcModule.new.register_method "m" (fun _ => .ok .null)).1.merge
        (RpcModule.new.register_method "m" (fun _ => .ok (.num 1))).1).2
      = .error (.methodAlreadyRegistered "m")) := by
  have h := merge_succeeds_iff_no_collision
    (RpcModule.new.register_method "m" (fun _ => .ok .null)).1
    (RpcModule.new.register_method "m" (fun _ => .ok (.num 1))).1
  have h2 := h.2 (by
    intro hok
    have hbad := h.1.mp hok "m" (by exact List.mem_singleton.mpr rfl)
    simp [Methods.hasName, Methods.lookup, RpcModule.register_method,
      RpcModule.verify_method_name, RpcModule.new, Methods.insert] at hbad)
  obtain ⟨hunch, n, hn, _, herr⟩ := h2
  have hmap : List.map Prod.fst
      ((RpcModule.new.register_method "m" (fun _ => .ok (.num 1))).1.methods) = ["m"] := rfl
  rw [hmap] at hn
  have hnm : n = "m" := List.mem_singleton.mp hn
  exact ⟨hunch, by rw [herr, hnm]⟩

/-- C7: registering a name that is already bound fails with
`MethodAlreadyRegistered` naming it, and leaves the module — in particular the
previously installed handler — exactly as it was. -/
theorem register_duplicate_name_fails_unchanged
    (m : RpcModule) (name : String) (h : Method)
    (cb : RpcParams → Except CallError Json)
    (hreg : Methods.lookup m.methods name = some h) :
    m.register_method name cb = (m, .error (.methodAlreadyRegistered name)) ∧
    Methods.lookup (m.register_method name cb).1.methods name = some h := by
  have : m.register_method name cb = (m, .error (.methodAlreadyRegistered name)) := by
    simp [RpcModule.register_method, RpcModule.verify_method_name, hreg]
  exact ⟨this, by rw [this]; exact hreg⟩

/-- Witness for C7: registering `"say_hello"` twice fails the second time and
the module still holds the first handler. -/
theorem register_duplicate_name_fails_unchanged_witness :
    ((RpcModule.new.register_method "say_hello" (fun _ => .ok (.str "hello"))).1.register_method
        "say_hello" (fun _ => .ok (.num 1)))
      = ((RpcModule.new.register_method "say_hello" (fun _ => .ok (.str "hello"))).1,
         .error (.methodAlreadyRegistered "say_hello")) :=
  (register_duplicate_name_fails_unchanged
    (RpcModule.new.register_method "say_hello" (fun _ => .ok (.str "hello"))).1
    "say_hello" (registerMethodHandler (fun _ => .ok (.str "hello")))
    (fun _ => .ok (.num 1)) rfl).1

/-- C8: when the unsubscribe handler's single positional parameter parses as a
subscription id, the handler removes `(connection_id, id)` from the Subscribers
table (a no-op when the id is unknown), writes the string response
`"Unsubscribed"`, and returns success from its outer signature. -/
theorem unsubscribe_handler_removes_and_responds
    (id : RpcId) (params : RpcParams) (tx : Sink) (txId conn : Nat)
    (subs : SubsMap) (rand : Nat) (sub_id : Nat)
    (hone : params.one = .ok sub_id) :
    (unsubscribeHandler id params tx txId conn subs rand).outer = .ok () ∧
    (unsubscribeHandler id params tx txId conn subs rand).subs
      = SubsMap.remove subs (conn, sub_id) ∧
    SubsMap.find? (unsubscribeHandler id params tx txId conn subs rand).subs
      (conn, sub_id) = none ∧
    (SubsMap.find? subs (conn, sub_id) = none →
      (unsubscribeHandler id params tx txId conn subs rand).subs = subs) ∧
    (unsubscribeHandler id params tx txId conn subs rand).sink
      = send_response id tx (.str "Unsubscribed") ∧
    (tx.closed = false →
      (unsubscribeHandler id params tx txId conn subs rand).sink.queue
        = tx.queue ++ [Json.render (.obj [("jsonrpc", .str "2.0"),
            ("result", .str "Unsubscribed"), ("id", id.toJson)])]) := by
  refine ⟨?_, ?_, ?_, ?_, ?_, ?_⟩
  · simp [unsubscribeHandler, hone]
  · simp [unsubscribeHandler, hone]
  · simp [unsubscribeHandler, hone, SubsMap.find?_remove]
  · intro habs
    simp [unsubscribeHandler, hone, SubsMap.remove_of_find?_none subs _ habs]
  · simp [unsubscribeHandler, hone]
  · intro hopen
    simp [unsubscribeHandler, hone, send_response, Sink.unbounded_send, hopen]

/-- Witness for C8: unsubscribing id 7 on connection 3 removes the entry and
answers `"Unsubscribed"`; repeating it on the now-empty table is a no-op that
still answers successfully. -/
theorem unsubscribe_handler_removes_and_responds_witness :
    (unsubscribeHandler (.num 2) ⟨some (.arr [.num 7])⟩ ⟨false, []⟩ 9 3 [((3, 7), 1)] 0).outer
      = .ok () ∧
    SubsMap.find?
      (unsubscribeHandler (.num 2) ⟨some (.arr [.num 7])⟩ ⟨false, []⟩ 9 3 [((3, 7), 1)] 0).subs
      (3, 7) = none ∧
    (unsubscribeHandler (.num 2) ⟨some (.arr [.num 7])⟩ ⟨false, []⟩ 9 3 [] 0).subs = [] := by
  have h1 := unsubscribe_handler_removes_and_responds (.num 2) ⟨some (.arr [.num 7])⟩
    ⟨false, []⟩ 9 3 [((3, 7), 1)] 0 7 (by decide)
  have h2 := unsubscribe_handler_removes_and_responds (.num 2) ⟨some (.arr [.num 7])⟩
    ⟨false, []⟩ 9 3 [] 0 7 (by decide)
  exact ⟨h1.1, h1.2.2.1, h2.2.2.2.1 (by decide)⟩

/-- C9: `SubscriptionSink::send` enqueues exactly one frame, the subscription
notification `{"jsonrpc":"2.0","method":<subscribe name>,"params":
{"subscription":<id>,"result":<value>}}`, and fails — with `Internal` and only
`Internal` — exactly when the underlying channel is closed. -/
theorem subscription_sink_send_frames
    (s : SubscriptionSink) (v : Json) (inner : Sink) :
    ((s.send v inner).2 = .error .internal ↔ inner.closed = true) ∧
    (∀ e, (s.send v inner).2 = .error e → e = .internal) ∧
    (inner.closed = true → (s.send v inner).1 = inner) ∧
    (inner.closed = false →
      (s.send v inner).2 = .ok () ∧
      (s.send v inner).1.queue = inner.queue ++
        [Json.render (.obj [("jsonrpc", .str "2.0"), ("method", .str s.method),
          ("params", .obj [("subscription", .num s.sub_id), ("result", v)])])]) := by
  cases hcl : inner.closed <;>
    simp [SubscriptionSink.send, Sink.unbounded_send, hcl]

/-- Witness for C9: a send on an open channel succeeds and enqueues the framed
notification; a send on a closed channel fails with `Internal`. -/
theorem subscription_sink_send_frames_witness :
    (SubscriptionSink.send ⟨"subscribe_hello", 5⟩ (.str "hi") ⟨false, []⟩).2 = .ok () ∧
    (SubscriptionSink.send ⟨"subscribe_hello", 5⟩ (.str "hi") ⟨false, []⟩).1.queue
      = [] ++ [Json.render (.obj [("jsonrpc", .str "2.0"),
          ("method", .str "subscribe_hello"),
          ("params", .obj [("subscription", .num 5), ("result", .str "hi")])])] ∧
    (SubscriptionSink.send ⟨"subscribe_hello", 5⟩ (.str "hi") ⟨true, []⟩).2
      = .error .internal := by
  have hopen := subscription_sink_send_frames ⟨"subscribe_hello", 5⟩ (.str "hi") ⟨false, []⟩
  have hclosed := subscription_sink_send_frames ⟨"subscribe_hello", 5⟩ (.str "hi") ⟨true, []⟩
  exact ⟨(hopen.2.2.2 rfl).1, (hopen.2.2.2 rfl).2, hclosed.1.mpr rfl⟩

/-- C10: when the unsubscribe handler's single positional parameter fails to
parse as a subscription id, the handler propagates the error through its outer
signature and touches nothing: the Subscribers table is unchanged and no frame
(in particular no `"Unsubscribed"` response) reaches the sink. -/
theorem unsubscribe_bad_param_propagates_error
    (id : RpcId) (params : RpcParams) (tx : Sink) (txId conn : Nat)
    (subs : SubsMap) (rand : Nat) (e : Error)
    (hone : params.one = .error e) :
    unsubscribeHandler id params tx txId conn subs rand
      = { sink := tx, subs := subs, outer := .error e } := by
  simp [unsubscribeHandler, hone]

/-- Witness for C10: a string parameter is not a subscription id; the handler
returns the invalid-params error and leaves sink and table as they were. -/
theorem unsubscribe_bad_param_propagates_error_witness :
    unsubscribeHandler (.num 2) ⟨some (.arr [.str "seven"])⟩ ⟨false, []⟩ 9 3 [((3, 7), 1)] 0
      = { sink := ⟨false, []⟩, subs := [((3, 7), 1)], outer := .error (.call .invalidParams) } :=
  unsubscribe_bad_param_propagates_error (.num 2) ⟨some (.arr [.str "seven"])⟩
    ⟨false, []⟩ 9 3 [((3, 7), 1)] 0 (.call .invalidParams) (by decide)

end JsonRpsee
